import Mathlib

/-!
Verification of the file_manager application: a shallow embedding of
`forms.py` (upload validation), `models.py` / `migrations/0001_initial.py`
(the File record and its store), and `views.py` (upload, download and
inline-display handlers), together with theorems about their behaviour.
-/

namespace FileManager

/-- Allowed image MIME types, from `forms.py` (`ALLOWED_IMAGE_TYPES`). -/
def ALLOWED_IMAGE_TYPES : List String := ["image/jpeg", "image/png", "image/gif"]

/-- Maximum file size in bytes, from `forms.py` (`MAX_FILE_SIZE = 5 * 1024 * 1024`). -/
def MAX_FILE_SIZE : Nat := 5 * 1024 * 1024

/-- An uploaded payload as the form sees it: client-supplied filename,
declared MIME type, declared byte size, and the raw bytes. -/
structure UploadedFile where
  name : String
  content_type : String
  size : Nat
  content : List Nat
deriving Repr, DecidableEq

/-- Embedding of `FileUploadForm.clean_file` from `forms.py`: reject when the
declared content type is not in `ALLOWED_IMAGE_TYPES`, then reject when the
size exceeds `MAX_FILE_SIZE`, otherwise return the file.  The size message is
built exactly as the Python f-string does, from `MAX_FILE_SIZE // (1024*1024)`. -/
def clean_file (uploaded_file : UploadedFile) : Except String UploadedFile :=
  if uploaded_file.content_type ∉ ALLOWED_IMAGE_TYPES then
    .error "Invalid file type. Only image files are allowed."
  else if uploaded_file.size > MAX_FILE_SIZE then
    .error ("File size exceeds the limit of " ++ toString (MAX_FILE_SIZE / (1024 * 1024)) ++ " MB.")
  else
    .ok uploaded_file

/-- A persisted `File` row, from `models.py` / the initial migration:
auto primary key `id`, `name`, binary `content`, `content_type`, and
`uploaded_at` set automatically at creation (`auto_now_add=True`). -/
structure File where
  id : Nat
  name : String
  content : List Nat
  content_type : String
  uploaded_at : Option Nat
deriving Repr, DecidableEq

/-- The relational store holding `File` rows: a list of rows plus the next
auto-increment id value. -/
structure Store where
  nextId : Nat
  files : List File
deriving Repr

/-- The empty store; auto-increment primary keys start at 1. -/
def Store.empty : Store := { nextId := 1, files := [] }

/-- Embedding of `File.objects.create(name=..., content=..., content_type=...)`
as used by `upload_file` in `views.py`: append a fresh row with the next id and
the current timestamp, and return the new store together with the assigned id. -/
def Store.insert (s : Store) (nm : String) (c : List Nat) (ct : String) (now : Nat) :
    Store × Nat :=
  let f : File := { id := s.nextId, name := nm, content := c, content_type := ct,
                    uploaded_at := some now }
  ({ nextId := s.nextId + 1, files := s.files ++ [f] }, s.nextId)

/-- Embedding of the primary-key lookup `get_object_or_404(File, id=file_id)`:
the row with the given id, if any. -/
def Store.fetchById (s : Store) (i : Nat) : Option File :=
  s.files.find? (fun f => f.id == i)

/-- Insert a `File` into a list kept sorted by id descending. -/
def insertDesc (f : File) : List File → List File
  | [] => [f]
  | g :: gs => if g.id ≤ f.id then f :: g :: gs else g :: insertDesc f gs

/-- Sort a list of rows by id descending (the `order_by(-id)` of the query). -/
def sortByIdDesc : List File → List File
  | [] => []
  | f :: fs => insertDesc f (sortByIdDesc fs)

/-- Embedding of `File.objects.all().order_by(-id)[:limit]` from `views.py`:
rows sorted by id descending, truncated to `limit` (the view uses 5). -/
def Store.listRecent (s : Store) (limit : Nat) : List File :=
  (sortByIdDesc s.files).take limit

/-- Store well-formedness: every persisted id was assigned from a past value of
the auto-increment counter, so it is below the current `nextId`.  This is the
reachability invariant of the store. -/
def Store.wf (s : Store) : Prop := ∀ f ∈ s.files, f.id < s.nextId

/-- Claim C1: any payload whose declared content type is outside the allowed
set is rejected with the invalid-file-type message, regardless of its size. -/
theorem clean_file_rejects_bad_type (u : UploadedFile)
    (h : u.content_type ∉ ALLOWED_IMAGE_TYPES) :
    clean_file u = .error "Invalid file type. Only image files are allowed." := by
  simp [clean_file, h]

theorem clean_file_rejects_bad_type_witness :
    clean_file ⟨"doc.pdf", "application/pdf", 10, [1, 2, 3]⟩ =
      .error "Invalid file type. Only image files are allowed." :=
  clean_file_rejects_bad_type ⟨"doc.pdf", "application/pdf", 10, [1, 2, 3]⟩ (by decide)

/-- Claim C2: any payload with an allowed content type but a size strictly
greater than 5242880 bytes is rejected with the 5 MB size-limit message. -/
theorem clean_file_rejects_oversize (u : UploadedFile)
    (h1 : u.content_type ∈ ALLOWED_IMAGE_TYPES) (h2 : u.size > MAX_FILE_SIZE) :
    clean_file u = .error "File size exceeds the limit of 5 MB." := by
  simp only [clean_file, h1, not_true_eq_false, if_false, if_neg, not_not, if_pos h2]
  rfl

theorem clean_file_rejects_oversize_witness :
    clean_file ⟨"big.png", "image/png", 5242881, []⟩ =
      .error "File size exceeds the limit of 5 MB." :=
  clean_file_rejects_oversize ⟨"big.png", "image/png", 5242881, []⟩ (by decide) (by decide)

/-- Claim C3: any payload with an allowed content type and a size at most
5242880 bytes passes validation (the form returns the file, no error). -/
theorem clean_file_accepts (u : UploadedFile)
    (h1 : u.content_type ∈ ALLOWED_IMAGE_TYPES) (h2 : u.size ≤ MAX_FILE_SIZE) :
    clean_file u = .ok u := by
  simp [clean_file, h1, Nat.not_lt.mpr h2]

theorem clean_file_accepts_witness :
    clean_file ⟨"a.png", "image/png", 10, [0, 1]⟩ = .ok ⟨"a.png", "image/png", 10, [0, 1]⟩ :=
  clean_file_accepts ⟨"a.png", "image/png", 10, [0, 1]⟩ (by decide) (by decide)

/-- Claim C4: when both policies are violated (disallowed type and oversize),
the reported reason is the type-check message: the type check runs first and
the first failing check alone determines the reason. -/
theorem clean_file_type_check_first (u : UploadedFile)
    (h1 : u.content_type ∉ ALLOWED_IMAGE_TYPES) (_h2 : u.size > MAX_FILE_SIZE) :
    clean_file u = .error "Invalid file type. Only image files are allowed." := by
  simp [clean_file, h1]

theorem clean_file_type_check_first_witness :
    clean_file ⟨"big.pdf", "application/pdf", 6000000, []⟩ =
      .error "Invalid file type. Only image files are allowed." :=
  clean_file_type_check_first ⟨"big.pdf", "application/pdf", 6000000, []⟩ (by decide) (by decide)

/-- Helper: appending a row whose id is strictly greater than every id already
in the list makes the id lookup find exactly that new row. -/
theorem find_append_fresh (l : List File) (f : File) (h : ∀ g ∈ l, g.id < f.id) :
    (l ++ [f]).find? (fun g => g.id == f.id) = some f := by
  induction l with
  | nil => simp [List.find?]
  | cons g gs ih =>
      have hg : (g.id == f.id) = false := by
        simp [Nat.ne_of_lt (h g (by simp))]
      simpa [List.find?, hg] using ih (fun x hx => h x (by simp [hx]))

/-- Claim C5: on any well-formed store, inserting a `File` and fetching by the
returned id yields a row with the inserted name, content and content type, and
a non-null `uploaded_at`. -/
theorem insert_fetch_roundtrip (s : Store) (nm : String) (c : List Nat) (ct : String)
    (now : Nat) (hwf : s.wf) :
    ∃ f, ((s.insert nm c ct now).1).fetchById (s.insert nm c ct now).2 = some f ∧
      f.name = nm ∧ f.content = c ∧ f.content_type = ct ∧ f.uploaded_at ≠ none := by
  refine ⟨⟨s.nextId, nm, c, ct, some now⟩, ?_, rfl, rfl, rfl, by simp⟩
  exact find_append_fresh s.files ⟨s.nextId, nm, c, ct, some now⟩ hwf

theorem insert_fetch_roundtrip_witness :
    ∃ f, ((Store.empty.insert "a.png" [7, 8] "image/png" 42).1).fetchById
        (Store.empty.insert "a.png" [7, 8] "image/png" 42).2 = some f ∧
      f.name = "a.png" ∧ f.content = [7, 8] ∧ f.content_type = "image/png" ∧
      f.uploaded_at ≠ none :=
  insert_fetch_roundtrip Store.empty "a.png" [7, 8] "image/png" 42
    (fun f hf => by simp [Store.empty] at hf)

/-- Fold a sequence of `(name, content, content_type, timestamp)` payloads into
the store by repeated `Store.insert`. -/
def insertAll (s : Store) : List (String × List Nat × String × Nat) → Store
  | [] => s
  | (nm, c, ct, t) :: ps => insertAll (s.insert nm c ct t).1 ps

/-- Claim C6: after inserting 7 records into the store, the listing query used
by the upload page (`listRecent 5`) returns exactly the 5 most-recently
inserted records, ordered by id descending (reverse insertion order, since ids
are assigned monotonically: here 7, 6, 5, 4, 3). -/
theorem listRecent_after_seven
    (nm1 nm2 nm3 nm4 nm5 nm6 nm7 ct1 ct2 ct3 ct4 ct5 ct6 ct7 : String)
    (c1 c2 c3 c4 c5 c6 c7 : List Nat) (t1 t2 t3 t4 t5 t6 t7 : Nat) :
    (insertAll Store.empty
        [(nm1, c1, ct1, t1), (nm2, c2, ct2, t2), (nm3, c3, ct3, t3), (nm4, c4, ct4, t4),
         (nm5, c5, ct5, t5), (nm6, c6, ct6, t6), (nm7, c7, ct7, t7)]).listRecent 5 =
      [⟨7, nm7, c7, ct7, some t7⟩, ⟨6, nm6, c6, ct6, some t6⟩, ⟨5, nm5, c5, ct5, some t5⟩,
       ⟨4, nm4, c4, ct4, some t4⟩, ⟨3, nm3, c3, ct3, some t3⟩] := by
  rfl

/-- An HTTP response as the handlers build it: a status code, raw body bytes,
and the two headers the views set. -/
structure HttpResponse where
  status : Nat
  body : List Nat
  content_type : Option String
  content_disposition : Option String
deriving Repr, DecidableEq

/-- The 404 response produced by `get_object_or_404` when no row matches. -/
def notFoundResponse : HttpResponse :=
  { status := 404, body := [], content_type := none, content_disposition := none }

/-- Embedding of `download_file` from `views.py`: look up the row by id (404 if
absent), else answer with the stored bytes, `Content-Type` set to the stored
content type, and `Content-Disposition` built by the f-string
`attachment; filename="{file.name}"`. -/
def download_file (s : Store) (file_id : Nat) : HttpResponse :=
  match s.fetchById file_id with
  | none => notFoundResponse
  | some f =>
      { status := 200, body := f.content, content_type := some f.content_type,
        content_disposition := some ("attachment; filename=\"" ++ f.name ++ "\"") }

/-- Embedding of `display_image` from `views.py`: same lookup, but the response
carries only the stored bytes and `Content-Type`, with no disposition header. -/
def display_image (s : Store) (file_id : Nat) : HttpResponse :=
  match s.fetchById file_id with
  | none => notFoundResponse
  | some f =>
      { status := 200, body := f.content, content_type := some f.content_type,
        content_disposition := none }

/-- Claim C7: the download handler answers 404 (not a crash, not an empty 200)
when no row has the requested id, and otherwise answers with the stored bytes,
`Content-Type` equal to the stored content type and `Content-Disposition`
equal to `attachment; filename="name"`. -/
theorem download_file_spec (s : Store) (i : Nat) :
    (s.fetchById i = none → download_file s i = notFoundResponse) ∧
    (∀ f, s.fetchById i = some f →
      download_file s i =
        { status := 200, body := f.content, content_type := some f.content_type,
          content_disposition := some ("attachment; filename=\"" ++ f.name ++ "\"") }) := by
  constructor
  · intro h
    simp [download_file, h]
  · intro f h
    simp [download_file, h]

/-- A sample persisted row used to instantiate the handler theorems. -/
def sampleFile : File :=
  { id := 1, name := "a.png", content := [10, 20], content_type := "image/png",
    uploaded_at := some 0 }

/-- A sample well-formed store holding just `sampleFile`. -/
def sampleStore : Store := { nextId := 2, files := [sampleFile] }

theorem download_file_spec_witness :
    download_file sampleStore 99 = notFoundResponse ∧
    download_file sampleStore 1 =
      { status := 200, body := [10, 20], content_type := some "image/png",
        content_disposition := some "attachment; filename=\"a.png\"" } := by
  exact ⟨(download_file_spec sampleStore 99).1 rfl,
         (download_file_spec sampleStore 1).2 sampleFile rfl⟩

/-- Claim C8: the inline-display handler has the same lookup semantics as the
download handler (404 on unknown id, stored bytes and stored content type on
success) and its response never carries a `Content-Disposition` header. -/
theorem display_image_spec (s : Store) (i : Nat) :
    (s.fetchById i = none → display_image s i = notFoundResponse) ∧
    (∀ f, s.fetchById i = some f →
      display_image s i =
        { status := 200, body := f.content, content_type := some f.content_type,
          content_disposition := none }) ∧
    (display_image s i).status = (download_file s i).status ∧
    (display_image s i).content_disposition = none := by
  refine ⟨fun h => by simp [display_image, h], fun f h => by simp [display_image, h], ?_, ?_⟩
  · cases h : s.fetchById i <;> simp [display_image, download_file, h]
  · cases h : s.fetchById i <;> simp [display_image, h, notFoundResponse]

theorem display_image_spec_witness :
    display_image sampleStore 99 = notFoundResponse ∧
    display_image sampleStore 1 =
      { status := 200, body := [10, 20], content_type := some "image/png",
        content_disposition := none } := by
  exact ⟨(display_image_spec sampleStore 99).1 rfl,
         ((display_image_spec sampleStore 1).2.1 sampleFile rfl)⟩

/-- An inbound request to the upload view: a plain page view, or a form
submission carrying the uploaded payload. -/
inductive Request where
  | get
  | post (file : UploadedFile)

/-- The observable outcome of the upload view: a rendered page (status, form
errors, listed files) or a redirect to a named route. -/
inductive UploadOutcome where
  | rendered (status : Nat) (form_errors : List String) (files : List File)
  | redirect (target : String)
deriving Repr, DecidableEq

/-- Embedding of `upload_file` from `views.py`.  A GET renders the page with no
errors and the 5 most recent files.  A POST runs the form validation: on
rejection the same page is re-rendered (HTTP 200) with the error attached and
no insert is made; on acceptance the file is persisted and the view redirects
to the `upload_file` route. -/
def upload_file (s : Store) (req : Request) (now : Nat) : Store × UploadOutcome :=
  match req with
  | .get => (s, .rendered 200 [] (s.listRecent 5))
  | .post u =>
      match clean_file u with
      | .error msg => (s, .rendered 200 [msg] (s.listRecent 5))
      | .ok v =>
          let s2 := (s.insert v.name v.content v.content_type now).1
          (s2, .redirect "upload_file")

/-- Claim C9: a submission that validation rejects makes no insert (the store,
hence the `listRecent` result, is unchanged) and terminates in a re-rendered
page carrying the form error with HTTP status 200, not a redirect. -/
theorem upload_rejected_no_insert (s : Store) (u : UploadedFile) (now : Nat) (msg : String)
    (h : clean_file u = .error msg) :
    upload_file s (.post u) now = (s, .rendered 200 [msg] (s.listRecent 5)) ∧
    ((upload_file s (.post u) now).1).listRecent 5 = s.listRecent 5 := by
  simp [upload_file, h]

theorem upload_rejected_no_insert_witness :
    upload_file sampleStore (.post ⟨"doc.pdf", "application/pdf", 10, [1]⟩) 7 =
      (sampleStore, .rendered 200 ["Invalid file type. Only image files are allowed."]
        (sampleStore.listRecent 5)) ∧
    ((upload_file sampleStore (.post ⟨"doc.pdf", "application/pdf", 10, [1]⟩) 7).1).listRecent 5 =
      sampleStore.listRecent 5 :=
  upload_rejected_no_insert sampleStore ⟨"doc.pdf", "application/pdf", 10, [1]⟩ 7
    "Invalid file type. Only image files are allowed." rfl

/-- Claim C10: the download handler builds `Content-Disposition` by embedding
the stored name verbatim between double quotes, with no escaping: for every
stored row the header is exactly `attachment; filename="` ++ name ++ `"`,
whatever characters (including double quotes) the name contains. -/
theorem download_disposition_verbatim (s : Store) (i : Nat) (f : File)
    (h : s.fetchById i = some f) :
    (download_file s i).content_disposition =
      some ("attachment; filename=\"" ++ f.name ++ "\"") := by
  simp [download_file, h]

/-- A stored row whose name contains a double quote, to exhibit the verbatim
(unescaped) interpolation. -/
def quoteFile : File :=
  { id := 1, name := "a\"b.png", content := [1], content_type := "image/png",
    uploaded_at := some 0 }

/-- A well-formed store holding just `quoteFile`. -/
def quoteStore : Store := { nextId := 2, files := [quoteFile] }

theorem download_disposition_verbatim_witness :
    (download_file quoteStore 1).content_disposition =
      some "attachment; filename=\"a\"b.png\"" :=
  download_disposition_verbatim quoteStore 1 quoteFile rfl

end FileManager
